import Mathlib

/-!
Shallow embedding of the React component
`ExperimentLoggedModelListPageTableEmpty`
(src/mlflow/server/js/src/experiment-tracking/components/
experiment-logged-models/ExperimentLoggedModelListPageTableEmpty.tsx).

The component renders an `Empty` design-system element whose title,
description, image and button depend on three props, plus a `Modal`
whose visibility is a local boolean state (`useState(false)`) toggled
by the button's click handler and reset by the modal's cancel/OK
handlers.  We embed the rendered output as plain data and the event
handlers as a step function on the boolean state.
-/

namespace LoggedModelsEmpty

/-- Models the JavaScript `Error` object as far as the component uses it:
only its `message` field is ever read (line 125 of the source). -/
structure ErrorObj where
  message : String
  deriving DecidableEq

/-- The component's props after destructuring defaults have been applied
(source lines 79-87): `displayShowExampleButton` defaults to `true`,
`isFilteringActive` defaults to `false`, `badRequestError` is optional. -/
structure Props where
  displayShowExampleButton : Bool
  isFilteringActive : Bool
  badRequestError : Option ErrorObj
  deriving DecidableEq

/-- Props as supplied by the caller: each field may be omitted
(`none`), in which case the destructuring default applies. -/
structure RawProps where
  displayShowExampleButton : Option Bool := none
  isFilteringActive : Option Bool := none
  badRequestError : Option ErrorObj := none

/-- Applies the destructuring defaults of source lines 80-82:
`displayShowExampleButton = true`, `isFilteringActive = false`, and
`badRequestError` stays optional. -/
def resolveProps (raw : RawProps) : Props :=
  { displayShowExampleButton := raw.displayShowExampleButton.getD true
  , isFilteringActive := raw.isFilteringActive.getD false
  , badRequestError := raw.badRequestError }

/-- `EXAMPLE_INSTALL_CODE` from source line 7. -/
def EXAMPLE_INSTALL_CODE : String := "pip install \x27mlflow>=3\x27"

/-- The raw template literal of `EXAMPLE_CODE` (source lines 8-77),
before the trailing `.trim()` call.  The literal begins with a newline
and ends without one; line 14 of the source keeps a trailing space
after `predicted)`. -/
def EXAMPLE_CODE_RAW : String :=
  "\n" ++
  "import pandas as pd\n" ++
  "from sklearn.linear_model import ElasticNet\n" ++
  "from sklearn.metrics import mean_squared_error, mean_absolute_error, r2_score\n" ++
  "from sklearn.datasets import load_iris\n" ++
  "from sklearn.model_selection import train_test_split\n" ++
  "\n" ++
  "import mlflow\n" ++
  "import mlflow.sklearn\n" ++
  "from mlflow.entities import Dataset\n" ++
  "\n" ++
  "# Helper function to compute metrics\n" ++
  "def compute_metrics(actual, predicted):\n" ++
  "    rmse = mean_squared_error(actual, predicted) \n" ++
  "    mae = mean_absolute_error(actual, predicted)\n" ++
  "    r2 = r2_score(actual, predicted)\n" ++
  "    return rmse, mae, r2\n" ++
  "\n" ++
  "# Load Iris dataset and prepare the DataFrame\n" ++
  "iris = load_iris()\n" ++
  "iris_df = pd.DataFrame(data=iris.data, columns=iris.feature_names)\n" ++
  "iris_df[\x27quality\x27] = (iris.target == 2).astype(int)  # Create a binary target for simplicity\n" ++
  "\n" ++
  "# Split into training and testing datasets\n" ++
  "train_df, test_df = train_test_split(iris_df, test_size=0.2, random_state=42)\n" ++
  "\n" ++
  "# Start a run to represent the training job\n" ++
  "with mlflow.start_run() as training_run:\n" ++
  "    # Load the training dataset with MLflow. We will link training metrics to this dataset.\n" ++
  "    train_dataset: Dataset = mlflow.data.from_pandas(train_df, name=\"train\")\n" ++
  "    train_x = train_dataset.df.drop([\"quality\"], axis=1)\n" ++
  "    train_y = train_dataset.df[[\"quality\"]]\n" ++
  "\n" ++
  "    # Fit a model to the training dataset\n" ++
  "    lr = ElasticNet(alpha=0.5, l1_ratio=0.5, random_state=42)\n" ++
  "    lr.fit(train_x, train_y)\n" ++
  "\n" ++
  "    # Log the model, specifying its ElasticNet parameters (alpha, l1_ratio)\n" ++
  "    # As a new feature, the LoggedModel entity is linked to its name and params\n" ++
  "    model_info = mlflow.sklearn.log_model(\n" ++
  "        sk_model=lr,\n" ++
  "        name=\"elasticnet\",\n" ++
  "        params=\x7b\n" ++
  "            \"alpha\": 0.5,\n" ++
  "            \"l1_ratio\": 0.5,\n" ++
  "        \x7d,\n" ++
  "        input_example = train_x\n" ++
  "    )\n" ++
  "\n" ++
  "    # Inspect the LoggedModel and its properties\n" ++
  "    logged_model = mlflow.get_logged_model(model_info.model_id)\n" ++
  "    print(logged_model.model_id, logged_model.params)\n" ++
  "\n" ++
  "    # Evaluate the model on the training dataset and log metrics\n" ++
  "    # These metrics are now linked to the LoggedModel entity\n" ++
  "    predictions = lr.predict(train_x)\n" ++
  "    (rmse, mae, r2) = compute_metrics(train_y, predictions)\n" ++
  "    mlflow.log_metrics(\n" ++
  "        metrics=\x7b\n" ++
  "            \"rmse\": rmse,\n" ++
  "            \"r2\": r2,\n" ++
  "            \"mae\": mae,\n" ++
  "        \x7d,\n" ++
  "        model_id=logged_model.model_id,\n" ++
  "        dataset=train_dataset\n" ++
  "    )\n" ++
  "\n" ++
  "    # Inspect the LoggedModel, now with metrics\n" ++
  "    logged_model = mlflow.get_logged_model(model_info.model_id)\n" ++
  "    print(logged_model.model_id, logged_model.metrics)"

/-- `EXAMPLE_CODE` from source lines 8-77: the template literal with
`.trim()` applied. -/
def EXAMPLE_CODE : String := EXAMPLE_CODE_RAW.trim

/-- The image passed to `Empty` (source line 149): either the danger
icon or nothing. -/
inductive EmptyImage where
  | dangerIcon
  deriving DecidableEq

/-- The description passed to `Empty` (source lines 123-148): either the
raw `badRequestError.message` string (line 125) or a `FormattedMessage`
element, which we identify by its `defaultMessage`. -/
inductive EmptyDescription where
  | text (s : String)
  | formatted (defaultMessage : String)
  deriving DecidableEq

/-- The observable output of the `Empty` element (source lines 104-164):
title (by its `defaultMessage`), description, image, and whether the
call-to-action button is rendered. -/
structure EmptyRender where
  title : String
  description : EmptyDescription
  image : Option EmptyImage
  buttonShown : Bool
  deriving DecidableEq

/-- The `Empty` element rendered from the props, transcribing the three
conditional expressions of source lines 104-163:
title (lines 105-122), description (lines 123-148), image (line 149),
and the button-presence condition
`displayShowExampleButton && !isFilteringActive && !badRequestError`
(line 151). -/
def renderEmpty (p : Props) : EmptyRender :=
  { title :=
      match p.badRequestError with
      | some _ => "Request error"
      | none =>
          if p.isFilteringActive then "No models found" else "No models logged"
  , description :=
      match p.badRequestError with
      | some err => EmptyDescription.text err.message
      | none =>
          if p.isFilteringActive then
            EmptyDescription.formatted
              "We couldn\x27t find any models matching your search criteria. Try changing your search filters."
          else
            EmptyDescription.formatted
              "Your models will appear here once you log them using newest version of MLflow. <link>Learn more</link>."
  , image :=
      match p.badRequestError with
      | some _ => some EmptyImage.dangerIcon
      | none => none
  , buttonShown :=
      p.displayShowExampleButton && !p.isFilteringActive &&
        p.badRequestError.isNone }

/-- The observable output of the `Modal` element (source lines 165-198):
its visibility and its fixed title, OK-button label, and the two code
snippets it contains. -/
structure ModalRender where
  visible : Bool
  titleText : String
  okText : String
  installSnippet : String
  codeSnippet : String
  deriving DecidableEq

/-- The `Modal` element (source lines 165-198): `visible` is the local
`isCodeExampleVisible` state, and the title, OK label and the two
`CodeSnippet` children are constants. -/
def renderModal (isCodeExampleVisible : Bool) : ModalRender :=
  { visible := isCodeExampleVisible
  , titleText := "Example code"
  , okText := "Close"
  , installSnippet := EXAMPLE_INSTALL_CODE
  , codeSnippet := EXAMPLE_CODE }

/-- The full rendered output of the component: the `Empty` element and
the `Modal`. -/
structure ComponentRender where
  empty : EmptyRender
  modal : ModalRender
  deriving DecidableEq

/-- One render of the component, given the (already defaulted) props and
the current value of the `isCodeExampleVisible` state. -/
def render (p : Props) (isCodeExampleVisible : Bool) : ComponentRender :=
  { empty := renderEmpty p
  , modal := renderModal isCodeExampleVisible }

/-- Initial value of the `isCodeExampleVisible` state:
`useState(false)` (source line 90). -/
def initState : Bool := false

/-- The discrete user events the component handles: the call-to-action
button's `onClick` (line 155), the modal's `onCancel` (line 168) and the
modal's `onOk` (line 182). -/
inductive Event where
  | clickShowExample
  | modalCancel
  | modalOk
  deriving DecidableEq

/-- The state transition performed by each event handler:
the button's `onClick` runs `setIsCodeExampleVisible(!isCodeExampleVisible)`
(line 155) and can only fire when the button is rendered; `onCancel`
(line 168) and `onOk` (line 182) both run
`setIsCodeExampleVisible(false)`. -/
def handleEvent (p : Props) (s : Bool) : Event → Bool
  | Event.clickShowExample => if (renderEmpty p).buttonShown then !s else s
  | Event.modalCancel => false
  | Event.modalOk => false

/-- State after `n` consecutive button clicks starting from the initial
state, with no other events. -/
def afterClicks (p : Props) : Nat → Bool
  | 0 => initState
  | n + 1 => handleEvent p (afterClicks p n) Event.clickShowExample

/-- State after running a list of events from a given state. -/
def runEvents (p : Props) (s : Bool) : List Event → Bool
  | [] => s
  | e :: es => runEvents p (handleEvent p s e) es

/-- Claim C1: the display state is selected by ordered precedence: with
`badRequestError` present the title is "Request error" regardless of the
other two props; otherwise with `isFilteringActive` the title is
"No models found"; otherwise it is "No models logged". -/
theorem title_precedence (e : ErrorObj) (b f : Bool) :
    (renderEmpty (Props.mk b f (some e))).title = "Request error" ∧
    (renderEmpty (Props.mk b true none)).title = "No models found" ∧
    (renderEmpty (Props.mk b false none)).title = "No models logged" :=
  ⟨rfl, rfl, rfl⟩

/-- Claim C2: the call-to-action button is rendered if and only if
`badRequestError` is absent, `isFilteringActive` is false, and
`displayShowExampleButton` is true. -/
theorem button_shown_iff (p : Props) :
    (renderEmpty p).buttonShown = true ↔
      p.badRequestError = none ∧ p.isFilteringActive = false ∧
        p.displayShowExampleButton = true := by
  rcases p with ⟨b, f, err⟩
  cases err <;> cases b <;> cases f <;> simp [renderEmpty]

/-- Witness for C2: with no error, no filtering and the flag true, the
button is rendered. -/
theorem button_shown_iff_witness :
    (renderEmpty (Props.mk true false none)).buttonShown = true :=
  (button_shown_iff (Props.mk true false none)).mpr ⟨rfl, rfl, rfl⟩

/-- Claim C3: the button's click handler negates the current
modal-visibility value, so starting from the initial closed state,
after `n` consecutive clicks the modal is open exactly when `n` is
odd. -/
theorem click_parity (p : Props) (s : Bool) (n : Nat)
    (h : (renderEmpty p).buttonShown = true) :
    handleEvent p s Event.clickShowExample = !s ∧
    afterClicks p n = decide (n % 2 = 1) := by
  constructor
  · simp [handleEvent, h]
  · induction n with
    | zero => rfl
    | succ k ih =>
        rcases Nat.mod_two_eq_zero_or_one k with hk | hk
        · have h2 : (k + 1) % 2 = 1 := by omega
          simp [afterClicks, handleEvent, h, ih, hk, h2]
        · have h2 : (k + 1) % 2 = 0 := by omega
          simp [afterClicks, handleEvent, h, ih, hk, h2]

/-- Witness for C3: with default props the button is rendered, and three
clicks leave the modal open. -/
theorem click_parity_witness :
    (renderEmpty (Props.mk true false none)).buttonShown = true ∧
    afterClicks (Props.mk true false none) 3 = true := by
  refine ⟨rfl, ?_⟩
  have h := click_parity (Props.mk true false none) false 3 rfl
  simpa using h.2

/-- Claim C4: when `badRequestError` is present, the rendered
description is exactly the error message string, unmodified, for every
error value including one with an empty message. -/
theorem error_description_verbatim (e : ErrorObj) (b f : Bool) :
    (renderEmpty (Props.mk b f (some e))).description =
      EmptyDescription.text e.message ∧
    (renderEmpty (Props.mk b f (some (ErrorObj.mk "")))).description =
      EmptyDescription.text "" :=
  ⟨rfl, rfl⟩

/-- Claim C5: the modal is a two-state machine with initial state
Closed; the button click toggles the state (Closed to Open and Open to
Closed), the cancel action and the OK button both transition to Closed,
and these three events are the only events. -/
theorem modal_two_state :
    initState = false ∧
    (∀ (p : Props) (s : Bool),
      ((renderEmpty p).buttonShown = true →
        handleEvent p s Event.clickShowExample = !s) ∧
      handleEvent p s Event.modalCancel = false ∧
      handleEvent p s Event.modalOk = false) ∧
    (∀ e : Event, e = Event.clickShowExample ∨ e = Event.modalCancel ∨
      e = Event.modalOk) := by
  refine ⟨rfl, fun p s => ⟨?_, rfl, rfl⟩, fun e => ?_⟩
  · intro h; simp [handleEvent, h]
  · cases e with
    | clickShowExample => exact Or.inl rfl
    | modalCancel => exact Or.inr (Or.inl rfl)
    | modalOk => exact Or.inr (Or.inr rfl)

/-- Witness for C5: with default props, a click from Closed opens the
modal and the cancel action from Open closes it. -/
theorem modal_two_state_witness :
    handleEvent (Props.mk true false none) false Event.clickShowExample = true ∧
    handleEvent (Props.mk true false none) true Event.modalCancel = false :=
  ⟨(modal_two_state.2.1 (Props.mk true false none) false).1 rfl,
   (modal_two_state.2.1 (Props.mk true false none) true).2.1⟩

/-- Claim C6: the modal's content is constant and independent of all
props and state: it always shows the install command
`pip install 'mlflow>=3'` and the fixed example script; and rendering
with no props followed by one button click leaves the modal visible
with exactly that content. -/
theorem modal_content_fixed :
    (∀ (p1 p2 : Props) (s : Bool), (render p1 s).modal = (render p2 s).modal) ∧
    (∀ (p : Props) (s : Bool),
      (render p s).modal.installSnippet = "pip install \x27mlflow>=3\x27" ∧
      (render p s).modal.codeSnippet = EXAMPLE_CODE) ∧
    afterClicks (resolveProps {}) 1 = true ∧
    (render (resolveProps {}) (afterClicks (resolveProps {}) 1)).modal.visible
      = true :=
  ⟨fun _ _ _ => rfl, fun _ _ => ⟨rfl, rfl⟩, rfl, rfl⟩

/-- Claim C7: omitted props take their documented defaults: omitting
`displayShowExampleButton` behaves exactly as supplying `true`, omitting
`isFilteringActive` behaves exactly as supplying `false`, and
`badRequestError` defaults to absent. -/
theorem prop_defaults (b f : Bool) (e : Option ErrorObj) (s : Bool) :
    render (resolveProps (RawProps.mk none (some f) e)) s =
      render (resolveProps (RawProps.mk (some true) (some f) e)) s ∧
    render (resolveProps (RawProps.mk (some b) none e)) s =
      render (resolveProps (RawProps.mk (some b) (some false) e)) s ∧
    (resolveProps (RawProps.mk (some b) (some f) none)).badRequestError
      = none ∧
    resolveProps {} = Props.mk true false none :=
  ⟨rfl, rfl, rfl, rfl⟩

/-- Claim C8: the rendered title, description and button presence are a
pure function of the props: two renders with equal props but different
values of the internal modal-visibility flag agree on all three. -/
theorem empty_state_pure (p : Props) (s1 s2 : Bool) :
    (render p s1).empty.title = (render p s2).empty.title ∧
    (render p s1).empty.description = (render p s2).empty.description ∧
    (render p s1).empty.buttonShown = (render p s2).empty.buttonShown :=
  ⟨rfl, rfl, rfl⟩

/-- Claim C9: whenever the button is not rendered, the modal is never
visible in any state reachable from the initial state, since the button
click is the only event that can set the visibility flag to true. -/
theorem no_button_no_modal (p : Props)
    (h : (renderEmpty p).buttonShown = false) :
    ∀ es : List Event, runEvents p initState es = false := by
  have hstep : ∀ e : Event, handleEvent p false e = false := by
    intro e; cases e <;> simp [handleEvent, h]
  intro es
  induction es with
  | nil => rfl
  | cons e es ih =>
      show runEvents p (handleEvent p initState e) es = false
      rw [show handleEvent p initState e = false from hstep e]
      exact ih

/-- Witness for C9: with `displayShowExampleButton` false the button is
absent and a click-cancel-click sequence leaves the modal closed. -/
theorem no_button_no_modal_witness :
    (renderEmpty (Props.mk false false none)).buttonShown = false ∧
    runEvents (Props.mk false false none) initState
      [Event.clickShowExample, Event.modalCancel, Event.clickShowExample]
      = false :=
  ⟨rfl, no_button_no_modal (Props.mk false false none) rfl
    [Event.clickShowExample, Event.modalCancel, Event.clickShowExample]⟩

/-- Claim C10: the empty-state image is the danger icon exactly when
`badRequestError` is present, and no image is passed otherwise, for
every prop combination. -/
theorem image_danger_iff_error (e : ErrorObj) (b f : Bool) :
    (renderEmpty (Props.mk b f (some e))).image = some EmptyImage.dangerIcon ∧
    (renderEmpty (Props.mk b f none)).image = none :=
  ⟨rfl, rfl⟩

end LoggedModelsEmpty
